import Mathlib

/-!
Shallow embedding of the event-driven core of the holoscan-test-suite
repository: the `Reactor` (src/holoscan_test_suite/reactor.py) and the
`Runner`/`Control`/`Checkbox` process-supervision layer
(src/holoscan_test_suite/controls.py).

Conventions of the embedding:
* `time.monotonic()` values and durations are `Nat` (the claims under
  study depend only on ordering and addition of times).
* Python callback objects are represented by opaque `Nat` identifiers;
  Python function equality is identity, so two distinct callbacks get
  distinct identifiers.
* Python exceptions are an `Except` error channel.  `TypeError` raised
  by comparing unorderable namedtuple fields is `Except Unit`.
* File descriptors are `Nat`.
-/

namespace HoloscanTestSuite

/-- The `ReactorAlarm` namedtuple of reactor.py:
`ReactorAlarm = collections.namedtuple("ReactorAlarm", ["deadline", "period_s", "callback"])`. -/
structure ReactorAlarm where
  deadline : Nat
  period_s : Option Nat
  callback : Nat
deriving DecidableEq, Repr

/-- Python `a < b` on two `ReactorAlarm` namedtuples: lexicographic over
the fields, testing `==` first and falling through to `<` on the first
unequal field.  Comparing `None` with a number, or comparing two distinct
function objects, raises `TypeError` (modelled as `.error ()`). -/
def pyLt (a b : ReactorAlarm) : Except Unit Bool :=
  if a.deadline ≠ b.deadline then .ok (decide (a.deadline < b.deadline))
  else if a.period_s ≠ b.period_s then
    match a.period_s, b.period_s with
    | some x, some y => .ok (decide (x < y))
    | _, _ => .error ()
  else if a.callback ≠ b.callback then .error ()
  else .ok false

/-- Insert an element into an already-sorted accumulator, using the
Python comparator; the element lands after any elements it does not
compare strictly less than, as in a stable sort.  Propagates `TypeError`
from the comparator. -/
def insertE (a : ReactorAlarm) : List ReactorAlarm → Except Unit (List ReactorAlarm)
  | [] => .ok [a]
  | b :: bs =>
    match pyLt a b with
    | .error e => .error e
    | .ok true => .ok (a :: b :: bs)
    | .ok false =>
      match insertE a bs with
      | .error e => .error e
      | .ok t => .ok (b :: t)

/-- Left-to-right insertion pass over the remaining input, failing as
soon as a comparison raises. -/
def pysortGo (acc : List ReactorAlarm) : List ReactorAlarm → Except Unit (List ReactorAlarm)
  | [] => .ok acc
  | a :: rest =>
    match insertE a acc with
    | .error e => .error e
    | .ok acc' => pysortGo acc' rest

/-- Python `list.sort()` on a list of `ReactorAlarm`: a stable sort under
the element comparator `pyLt`, raising `TypeError` when the comparator
does.  Modelled as a stable insertion sort. -/
def pysort (l : List ReactorAlarm) : Except Unit (List ReactorAlarm) :=
  pysortGo [] l

namespace Reactor

/-- `Reactor.alarm(deadline, callback)` restricted to its effect on the
alarm list: append `ReactorAlarm(deadline, None, callback)` and
`self._alarms.sort()`. -/
def alarm (deadline : Nat) (callback : Nat) (alarms : List ReactorAlarm) :
    Except Unit (List ReactorAlarm) :=
  pysort (alarms ++ [⟨deadline, none, callback⟩])

/-- `Reactor.periodic_alarm(period_s, callback)`: reads `now =
time.monotonic()` (passed explicitly here), appends
`ReactorAlarm(now + period_s, period_s, callback)` and sorts. -/
def periodic_alarm (now period_s callback : Nat) (alarms : List ReactorAlarm) :
    Except Unit (List ReactorAlarm) :=
  pysort (alarms ++ [⟨now + period_s, some period_s, callback⟩])

/-- Outcome of one iteration of the alarm-draining `while True` loop in
`Reactor._run` (lines 100-126 of reactor.py), before the callback is
invoked. -/
inductive DrainStep where
  /-- The loop breaks: either the list was empty (`timeout_s = none`) or
  the head deadline lies in the future (`timeout_s = some remaining`). -/
  | done (timeout_s : Option Nat)
  /-- The head alarm expired: its callback is to be invoked and the alarm
  list has been updated (popped for a one-shot, rescheduled at
  `deadline + period_s` and re-sorted for a periodic alarm). -/
  | fired (callback : Nat) (alarms : List ReactorAlarm)
deriving DecidableEq, Repr

/-- One iteration of the alarm-draining loop of `Reactor._run`, given the
current `time.monotonic()` reading `now`.  A `TypeError` out of
`self._alarms.sort()` (line 120) is not caught by the loop and
propagates. -/
def drainStep (now : Nat) : List ReactorAlarm → Except Unit DrainStep
  | [] => .ok (.done none)
  | a :: rest =>
    if now < a.deadline then .ok (.done (some (a.deadline - now)))
    else
      match a.period_s with
      | none => .ok (.fired a.callback rest)
      | some p =>
        match pysort (⟨a.deadline + p, some p, a.callback⟩ :: rest) with
        | .error e => .error e
        | .ok l => .ok (.fired a.callback l)

end Reactor

/-- Lookup in an association list (Python dict indexing `m[fd]`,
`none` when the key is absent, where Python raises `KeyError`). -/
def mapLookup (fd : Nat) : List (Nat × Nat) → Option Nat
  | [] => none
  | (k, v) :: rest => if k = fd then some v else mapLookup fd rest

/-- Python dict assignment `m[fd] = cb`: replaces an existing binding in
place, otherwise appends. -/
def mapInsert (fd cb : Nat) : List (Nat × Nat) → List (Nat × Nat)
  | [] => [(fd, cb)]
  | (k, v) :: rest =>
    if k = fd then (fd, cb) :: rest else (k, v) :: mapInsert fd cb rest

/-- Python `del m[fd]` on a present key (absence is checked by the
caller). -/
def mapErase (fd : Nat) : List (Nat × Nat) → List (Nat × Nat)
  | [] => []
  | (k, v) :: rest => if k = fd then rest else (k, v) :: mapErase fd rest

/-- The I/O-registration state of a `Reactor`: `epoll_map` is
`self._epoll_map` (dict from file descriptor to handler callback), and
`epoll_fds` is the set of descriptors currently registered with the
`select.epoll` object. -/
structure IOState where
  epoll_map : List (Nat × Nat)
  epoll_fds : List Nat
deriving DecidableEq, Repr

namespace Reactor

/-- `Reactor.register(fd, handler)` (reactor.py lines 139-142):
`self._epoll_map[fd] = handler` first, then `self._epoll.register(fd,
event)`.  Per the documented semantics of `select.epoll.register` (an
external collaborator), registering a descriptor that is already
registered raises `FileExistsError` — after the dict assignment has
already replaced the callback.  The returned `Except` is the outcome of
the whole call. -/
def register (fd handler : Nat) (s : IOState) : IOState × Except Unit Unit :=
  let s1 : IOState := { s with epoll_map := mapInsert fd handler s.epoll_map }
  if fd ∈ s1.epoll_fds then (s1, .error ())
  else ({ s1 with epoll_fds := s1.epoll_fds ++ [fd] }, .ok ())

/-- `Reactor.unregister(fd)` (reactor.py lines 144-147):
`self._epoll.unregister(fd)` first — which raises (OSError /
FileNotFoundError) when `fd` is not registered, leaving everything
unchanged — then `del self._epoll_map[fd]`, which raises `KeyError` when
the dict has no such key. -/
def unregister (fd : Nat) (s : IOState) : IOState × Except Unit Unit :=
  if fd ∈ s.epoll_fds then
    let s1 : IOState := { s with epoll_fds := s.epoll_fds.erase fd }
    if (mapLookup fd s1.epoll_map).isSome then
      ({ s1 with epoll_map := mapErase fd s1.epoll_map }, .ok ())
    else (s1, .error ())
  else (s, .error ())

/-- The per-event body of the ready-handles loop of `Reactor._run`
(lines 131-137): look up `self._epoll_map[fileno]` and call the handler,
with the whole body wrapped in `try/except Exception` that logs and
continues.  `run` gives the semantics of callbacks (`run cbId event` may
raise).  Returns the list of caught exceptions, one entry (possibly
`none`) per reported event — so every ready handle is processed. -/
def handleReady (run : Nat → Nat → Except String Unit)
    (epoll_map : List (Nat × Nat)) (events : List (Nat × Nat)) :
    List (Option String) :=
  events.map fun e =>
    match mapLookup e.1 epoll_map with
    | none => some "KeyError"
    | some handler =>
      match run handler e.2 with
      | .ok _ => none
      | .error msg => some msg

/-- `reactor_alarm.callback()` wrapped in the `try/except Exception`
of `Reactor._run` lines 122-126: the exception is caught and logged,
never propagated. -/
def fireCaught (run : Nat → Except String Unit) (cb : Nat) : Option String :=
  match run cb with
  | .ok _ => none
  | .error e => some e

/-- Outcome of one alarm-loop iteration including the callback call:
either the loop breaks with the computed poll timeout, or an alarm fired
(`caught` records an exception the callback raised, which the loop
catches and logs). -/
inductive FireOut where
  | idle (timeout_s : Option Nat)
  | fired (caught : Option String) (alarms : List ReactorAlarm)
deriving DecidableEq, Repr

/-- One alarm-loop iteration of `Reactor._run` with the callback
invoked under the loop's `try/except`: the alarm-list update of
`drainStep` followed by `fireCaught` on the fired callback. -/
def drainFire (run : Nat → Except String Unit) (now : Nat)
    (l : List ReactorAlarm) : Except Unit FireOut :=
  match drainStep now l with
  | .error e => .error e
  | .ok (.done t) => .ok (.idle t)
  | .ok (.fired cb l') => .ok (.fired (fireCaught run cb) l')

/-- Forget which exception (if any) the fired callback raised, keeping
only the loop-state part of a `FireOut`. -/
def FireOut.eraseCaught : FireOut → FireOut
  | .idle t => .idle t
  | .fired _ l => .fired none l

end Reactor

/-- A `flask_socketio.emit(..., broadcast=True)` event from controls.py:
`<control>-reset`, `<control>-stdout`, `<control>-stderr` and
`<control>-value` broadcasts. -/
inductive Ev where
  | reset (control : String)
  | stdoutMsg (control : String) (value : String)
  | stderrMsg (control : String) (value : String)
  | valueMsg (control : String) (value : Bool) (enable : Bool)
deriving DecidableEq, Repr

/-- The `{control, value, enable}` dict returned by `Checkbox.update`
and `Checkbox.request`. -/
structure Reply where
  control : String
  value : Bool
  enable : Bool
deriving DecidableEq, Repr

/-- Joint state of one `Runner` and its associated `Checkbox` control
(controls.py), plus the broadcast log and the pipes the Runner owns.

* `process` — `self._process` (`some pid` for a live `subprocess.Popen`
  handle, `none` when no process);
* `nextPid` — allocator for fresh process identities, to count spawns;
* `stdout_w` / `stderr_w` — whether the local write end of each pipe is
  still open (`self._stdout_w != -1` / `self._stderr_w != -1`);
* `stdout_reg` / `stderr_reg` — whether each read end is registered with
  the reactor;
* `stdout_r_open` / `stderr_r_open` — whether each read end is open;
* `stdoutBuf` / `stderrBuf` — chunks pending in each pipe, in order;
* `value` — `Checkbox._value`;
* `emitted` — the broadcast log, in emission order;
* `terminated` — how many times `process.terminate()` has been called
  (counts executions of the `Runner._stop` termination path). -/
structure SysState where
  process : Option Nat
  nextPid : Nat
  stdout_w : Bool
  stderr_w : Bool
  stdout_reg : Bool
  stderr_reg : Bool
  stdout_r_open : Bool
  stderr_r_open : Bool
  stdoutBuf : List String
  stderrBuf : List String
  value : Bool
  emitted : List Ev
  terminated : Nat
deriving DecidableEq, Repr

/-- `os.read(fd, 8192)` on a pipe read end that the reactor reported
ready: pops the oldest pending chunk, or returns the zero-length string
when the buffer is empty (EOF — the write ends are closed, which is the
only way an empty pipe polls ready). -/
def pipeRead (buf : List String) : String × List String :=
  match buf with
  | [] => ("", [])
  | v :: rest => (v, rest)

namespace Runner

/-- `Runner._start` (controls.py lines 72-98), parametrised by the
outcome of the external `subprocess.Popen` call: create the stdout and
stderr pipes, register both read ends with the reactor, spawn the
process; on a spawn exception, the formatted traceback `errText` is
written into the stderr pipe (`os.write(self._stderr_w, ...)`) instead
of raising; finally both local write ends are closed
(`self._stdout_w = -1`, `self._stderr_w = -1`). -/
def start_ (spawnOk : Bool) (errText : String) (s : SysState) : SysState :=
  let s := { s with
    stdout_w := true, stderr_w := true,
    stdout_r_open := true, stderr_r_open := true,
    stdout_reg := true, stderr_reg := true,
    stdoutBuf := [], stderrBuf := [] }
  let s :=
    if spawnOk then { s with process := some s.nextPid, nextPid := s.nextPid + 1 }
    else { s with stderrBuf := s.stderrBuf ++ [errText] }
  { s with stdout_w := false, stderr_w := false }

/-- `Runner.start` (controls.py lines 58-70): if no process is running,
broadcast a `<control>-reset` event and call `_start`; otherwise only
log "Already started". -/
def start (spawnOk : Bool) (errText name : String) (s : SysState) : SysState :=
  if s.process = none then
    start_ spawnOk errText { s with emitted := s.emitted ++ [.reset name] }
  else s

end Runner

/-!
The call graph `Runner.stop → Runner._stop → Checkbox.stopped →
Checkbox.update → Runner.update → Runner.stop` is cyclic in the Python
source (reentrancy: stopping notifies the control, whose update calls
back into the runner).  The embedding breaks the single back edge by
abstracting the nested `self.stop()` call as an explicit `stop`
parameter; `Runner.stop` then ties the knot by structural recursion on a
fuel bound on the reentrancy depth.  In every execution the nested call
sees `self._process is None` (it was cleared at the top of `_stop`), so
any fuel ≥ 1 reproduces the Python behaviour exactly.
-/

/-- `Runner.update` (controls.py lines 121-126): `start()` when the
requested state is true, `stop()` when false; returns
`self._process is not None`.  `stop` is the runner's `self.stop`. -/
def Runner.update_ (stop : SysState → SysState) (spawnOk : Bool)
    (errText name : String) (v : Bool) (s : SysState) : SysState × Bool :=
  let s := if v then Runner.start spawnOk errText name s else stop s
  (s, s.process.isSome)

/-- `Checkbox.update` (controls.py lines 338-345): `r = self._update(value)`
— where the checkbox is constructed with `update=runner.update`
(holoscan_test_controls.py line 256) — then `self._value = r` and return
`{"control": control_name, "value": self._value, "enable": True}`. -/
def Checkbox.update_ (stop : SysState → SysState) (spawnOk : Bool)
    (errText name : String) (v : Bool) (s : SysState) : SysState × Reply :=
  let (s, r) := Runner.update_ stop spawnOk errText name v s
  ({ s with value := r }, { control := name, value := r, enable := true })

/-- `Checkbox.stopped` (controls.py lines 354-362): compute
`reply = self.update(self._control_name, False)` and broadcast it as a
`<control>-value` event. -/
def Checkbox.stopped_ (stop : SysState → SysState) (spawnOk : Bool)
    (errText name : String) (s : SysState) : SysState :=
  let (s, reply) := Checkbox.update_ stop spawnOk errText name false s
  { s with emitted := s.emitted ++ [.valueMsg reply.control reply.value reply.enable] }

/-- `Runner._stop` (controls.py lines 106-119): clear `self._process`
first, call `process.terminate()` and `process.communicate(timeout=20)`
(elapsed time is not modelled), close any still-open pipe write ends,
then notify the control via `self._control.stopped()`. -/
def Runner.stopInner (stop : SysState → SysState) (spawnOk : Bool)
    (errText name : String) (s : SysState) : SysState :=
  let s := { s with process := none, terminated := s.terminated + 1 }
  let s := if s.stdout_w then { s with stdout_w := false } else s
  let s := if s.stderr_w then { s with stderr_w := false } else s
  Checkbox.stopped_ stop spawnOk errText name s

/-- `Runner.stop` (controls.py lines 100-104): call `_stop` when a
process is running, otherwise only log "Not currently running".  `fuel`
bounds the reentrancy depth (see the note above). -/
def Runner.stop (spawnOk : Bool) (errText name : String) :
    Nat → SysState → SysState
  | 0, s => s
  | fuel + 1, s =>
    if s.process.isSome then
      Runner.stopInner (Runner.stop spawnOk errText name fuel)
        spawnOk errText name s
    else s

/-- `Runner._stop` with the nested `stop` resolved at the given fuel. -/
def Runner.stop_ (spawnOk : Bool) (errText name : String) (fuel : Nat)
    (s : SysState) : SysState :=
  Runner.stopInner (Runner.stop spawnOk errText name fuel) spawnOk errText name s

/-- `Checkbox.stopped` with the nested `stop` resolved at the given fuel. -/
def Checkbox.stopped (spawnOk : Bool) (errText name : String) (fuel : Nat)
    (s : SysState) : SysState :=
  Checkbox.stopped_ (Runner.stop spawnOk errText name fuel) spawnOk errText name s

/-- `Checkbox.update` with the nested `stop` resolved at the given fuel. -/
def Checkbox.update (spawnOk : Bool) (errText name : String) (fuel : Nat)
    (v : Bool) (s : SysState) : SysState × Reply :=
  Checkbox.update_ (Runner.stop spawnOk errText name fuel) spawnOk errText name v s

/-- `Runner.update` with the nested `stop` resolved at the given fuel. -/
def Runner.update (spawnOk : Bool) (errText name : String) (fuel : Nat)
    (v : Bool) (s : SysState) : SysState × Bool :=
  Runner.update_ (Runner.stop spawnOk errText name fuel) spawnOk errText name v s

/-- `Runner.stderr` (controls.py lines 128-143): read from the stderr
pipe; a zero-length read means EOF, so unregister and close the read end
and, if a process is still recorded, call `stop()`; a non-empty read is
broadcast verbatim as a `<control>-stderr` event. -/
def Runner.stderr (spawnOk : Bool) (errText name : String) (fuel : Nat)
    (s : SysState) : SysState :=
  let (v, rest) := pipeRead s.stderrBuf
  let s := { s with stderrBuf := rest }
  if v.length = 0 then
    let s := { s with stderr_reg := false, stderr_r_open := false }
    if s.process.isSome then Runner.stop spawnOk errText name fuel s else s
  else
    { s with emitted := s.emitted ++ [.stderrMsg name v] }

/-- `Runner.stdout` (controls.py lines 145-160): same as `Runner.stderr`
but for the stdout pipe and the `<control>-stdout` event. -/
def Runner.stdout (spawnOk : Bool) (errText name : String) (fuel : Nat)
    (s : SysState) : SysState :=
  let (v, rest) := pipeRead s.stdoutBuf
  let s := { s with stdoutBuf := rest }
  if v.length = 0 then
    let s := { s with stdout_reg := false, stdout_r_open := false }
    if s.process.isSome then Runner.stop spawnOk errText name fuel s else s
  else
    { s with emitted := s.emitted ++ [.stdoutMsg name v] }

/-- `Checkbox.request` (controls.py lines 347-352): report the current
value with no side effects. -/
def Checkbox.request (name : String) (s : SysState) : Reply :=
  { control := name, value := s.value, enable := true }

/-! ## Sortedness infrastructure for the alarm list -/

/-- The alarm-list invariant stated by reactor.py line 81 and line 104:
deadlines are in ascending (non-decreasing) order. -/
def deadlineSorted (l : List ReactorAlarm) : Prop :=
  l.Pairwise (fun a b => a.deadline ≤ b.deadline)

theorem pyLt_ok_true_le {a b : ReactorAlarm} (h : pyLt a b = .ok true) :
    a.deadline ≤ b.deadline := by
  unfold pyLt at h
  by_cases h1 : a.deadline = b.deadline
  · exact Nat.le_of_eq h1
  · simp [h1] at h
    omega

theorem pyLt_ok_false_le {a b : ReactorAlarm} (h : pyLt a b = .ok false) :
    b.deadline ≤ a.deadline := by
  unfold pyLt at h
  by_cases h1 : a.deadline = b.deadline
  · exact Nat.le_of_eq h1.symm
  · simp [h1] at h
    omega

theorem insertE_mem {a : ReactorAlarm} {l : List ReactorAlarm} :
    ∀ {l' : List ReactorAlarm}, insertE a l = .ok l' →
      ∀ x ∈ l', x = a ∨ x ∈ l := by
  induction l with
  | nil =>
    intro l' h x hx
    simp only [insertE, Except.ok.injEq] at h
    subst h
    simp only [List.mem_singleton] at hx
    exact Or.inl hx
  | cons b bs ih =>
    intro l' h x hx
    simp only [insertE] at h
    cases hlt : pyLt a b with
    | error e => rw [hlt] at h; cases h
    | ok lt =>
      rw [hlt] at h
      cases lt with
      | true =>
        simp only [Except.ok.injEq] at h
        subst h
        simp only [List.mem_cons] at hx
        rcases hx with hx | hx | hx
        · exact Or.inl hx
        · exact Or.inr (by simp [hx])
        · exact Or.inr (by simp [hx])
      | false =>
        cases ht : insertE a bs with
        | error e => rw [ht] at h; cases h
        | ok t =>
          rw [ht] at h
          simp only [Except.ok.injEq] at h
          subst h
          simp only [List.mem_cons] at hx
          rcases hx with hx | hx
          · exact Or.inr (by simp [hx])
          · rcases ih ht x hx with hx' | hx'
            · exact Or.inl hx'
            · exact Or.inr (by simp [hx'])

theorem insertE_sorted {a : ReactorAlarm} {l : List ReactorAlarm} :
    ∀ {l' : List ReactorAlarm}, deadlineSorted l → insertE a l = .ok l' →
      deadlineSorted l' := by
  induction l with
  | nil =>
    intro l' _ h
    simp only [insertE, Except.ok.injEq] at h
    subst h
    simp [deadlineSorted]
  | cons b bs ih =>
    intro l' hs h
    simp only [insertE] at h
    rw [deadlineSorted, List.pairwise_cons] at hs
    cases hlt : pyLt a b with
    | error e => rw [hlt] at h; cases h
    | ok lt =>
      rw [hlt] at h
      cases lt with
      | true =>
        simp only [Except.ok.injEq] at h
        subst h
        have hab := pyLt_ok_true_le hlt
        rw [deadlineSorted, List.pairwise_cons]
        constructor
        · intro x hx
          simp only [List.mem_cons] at hx
          rcases hx with hx | hx
          · exact hx ▸ hab
          · exact Nat.le_trans hab (hs.1 x hx)
        · rw [List.pairwise_cons]
          exact ⟨hs.1, hs.2⟩
      | false =>
        cases ht : insertE a bs with
        | error e => rw [ht] at h; cases h
        | ok t =>
          rw [ht] at h
          simp only [Except.ok.injEq] at h
          subst h
          have hba := pyLt_ok_false_le hlt
          rw [deadlineSorted, List.pairwise_cons]
          constructor
          · intro x hx
            rcases insertE_mem ht x hx with hx' | hx'
            · exact hx' ▸ hba
            · exact hs.1 x hx'
          · exact ih hs.2 ht

theorem pysortGo_sorted {l : List ReactorAlarm} :
    ∀ {acc r : List ReactorAlarm}, deadlineSorted acc →
      pysortGo acc l = .ok r → deadlineSorted r := by
  induction l with
  | nil =>
    intro acc r hs h
    simp only [pysortGo, Except.ok.injEq] at h
    exact h ▸ hs
  | cons a rest ih =>
    intro acc r hs h
    simp only [pysortGo] at h
    cases hins : insertE a acc with
    | error e => rw [hins] at h; cases h
    | ok acc' =>
      rw [hins] at h
      exact ih (insertE_sorted hs hins) h

theorem pysort_sorted {l r : List ReactorAlarm} (h : pysort l = .ok r) :
    deadlineSorted r :=
  pysortGo_sorted (by simp [deadlineSorted]) h

theorem mapLookup_mapInsert (fd cb : Nat) (m : List (Nat × Nat)) :
    mapLookup fd (mapInsert fd cb m) = some cb := by
  induction m with
  | nil => simp [mapInsert, mapLookup]
  | cons p rest ih =>
    obtain ⟨k, v⟩ := p
    by_cases h : k = fd
    · simp [mapInsert, mapLookup, h]
    · simp [mapInsert, mapLookup, h, ih]

/-! ## Claim theorems: Reactor -/

/-- C6: the Reactor's alarm list is always sorted ascending by deadline:
the invariant holds for the initial empty list and is preserved by every
completing operation that mutates the list — `Reactor.alarm`,
`Reactor.periodic_alarm`, popping an expired one-shot alarm, and
rescheduling an expired periodic alarm at `deadline + period` (the two
latter are the `fired` outcomes of `drainStep`). -/
theorem alarm_list_always_sorted :
    deadlineSorted [] ∧
    (∀ (l : List ReactorAlarm) (d cb : Nat) (l' : List ReactorAlarm),
      Reactor.alarm d cb l = .ok l' → deadlineSorted l') ∧
    (∀ (l : List ReactorAlarm) (now P cb : Nat) (l' : List ReactorAlarm),
      Reactor.periodic_alarm now P cb l = .ok l' → deadlineSorted l') ∧
    (∀ (l : List ReactorAlarm) (now cb : Nat) (l' : List ReactorAlarm),
      deadlineSorted l → Reactor.drainStep now l = .ok (.fired cb l') →
      deadlineSorted l') := by
  refine ⟨by simp [deadlineSorted], fun l d cb l' h => pysort_sorted h,
    fun l now P cb l' h => pysort_sorted h, fun l now cb l' hs h => ?_⟩
  cases l with
  | nil => simp [Reactor.drainStep] at h
  | cons a rest =>
    obtain ⟨d, per, cbk⟩ := a
    rw [deadlineSorted, List.pairwise_cons] at hs
    simp only [Reactor.drainStep] at h
    by_cases hd : now < d
    · rw [if_pos hd] at h
      simp at h
    · rw [if_neg hd] at h
      cases per with
      | none =>
        simp only [Except.ok.injEq, Reactor.DrainStep.fired.injEq] at h
        exact h.2 ▸ hs.2
      | some p =>
        dsimp only at h
        cases hq : pysort (⟨d + p, some p, cbk⟩ :: rest) with
        | error e => rw [hq] at h; cases h
        | ok l2 =>
          rw [hq] at h
          simp only [Except.ok.injEq, Reactor.DrainStep.fired.injEq] at h
          exact h.2 ▸ pysort_sorted hq

/-- C6 witness: concrete instances of each preservation clause. -/
theorem alarm_list_always_sorted_witness :
    (Reactor.alarm 4 2 [⟨5, none, 1⟩] = .ok [⟨4, none, 2⟩, ⟨5, none, 1⟩] ∧
      deadlineSorted [⟨4, none, 2⟩, ⟨5, none, 1⟩]) ∧
    (Reactor.periodic_alarm 1 2 9 [⟨5, none, 1⟩] =
        .ok [⟨3, some 2, 9⟩, ⟨5, none, 1⟩] ∧
      deadlineSorted [⟨3, some 2, 9⟩, ⟨5, none, 1⟩]) ∧
    (deadlineSorted [⟨3, none, 4⟩, ⟨5, none, 1⟩] ∧
      Reactor.drainStep 10 [⟨3, none, 4⟩, ⟨5, none, 1⟩] =
        .ok (.fired 4 [⟨5, none, 1⟩]) ∧
      deadlineSorted [⟨5, none, 1⟩]) :=
  ⟨⟨rfl, alarm_list_always_sorted.2.1 [⟨5, none, 1⟩] 4 2 _ rfl⟩,
   ⟨rfl, alarm_list_always_sorted.2.2.1 [⟨5, none, 1⟩] 1 2 9 _ rfl⟩,
   ⟨by simp [deadlineSorted], rfl,
    alarm_list_always_sorted.2.2.2 [⟨3, none, 4⟩, ⟨5, none, 1⟩] 10 4 _
      (by simp [deadlineSorted]) rfl⟩⟩

/-- C3: a periodic alarm first armed at time `T` with period `P` gets
deadline `T + P`, and every firing of it by the run loop reschedules it
at its own stored deadline plus `P` — so its successive deadlines are
`T + P`, `T + 2P`, `T + 3P`, …, whatever the current wall-clock reading
`now` at fire time is (only `deadline ≤ now` is needed to fire). -/
theorem periodic_alarm_fixed_schedule (T P cb : Nat) :
    Reactor.periodic_alarm T P cb [] = .ok [⟨T + P, some P, cb⟩] ∧
    ∀ k now, T + (k + 1) * P ≤ now →
      Reactor.drainStep now [⟨T + (k + 1) * P, some P, cb⟩] =
        .ok (.fired cb [⟨T + (k + 2) * P, some P, cb⟩]) := by
  refine ⟨rfl, fun k now h => ?_⟩
  have e : T + (k + 1) * P + P = T + (k + 2) * P := by ring
  simp only [Reactor.drainStep]
  rw [if_neg (by omega), e]
  rfl

/-- C3 witness: a period-3 alarm armed at 10 fires at deadline 13 even
when the loop only gets to it at `now = 20`, and is rescheduled for 16,
not for a time derived from 20. -/
theorem periodic_alarm_fixed_schedule_witness :
    Reactor.periodic_alarm 10 3 7 [] = .ok [⟨13, some 3, 7⟩] ∧
    10 + (0 + 1) * 3 ≤ 20 ∧
    Reactor.drainStep 20 [⟨13, some 3, 7⟩] = .ok (.fired 7 [⟨16, some 3, 7⟩]) :=
  ⟨(periodic_alarm_fixed_schedule 10 3 7).1, by omega,
   (periodic_alarm_fixed_schedule 10 3 7).2 0 20 (by omega)⟩

/-- C5: exceptions raised by handlers are caught at the run-loop
boundary and never escape or disturb the loop: every ready handle's
callback is processed (one caught-outcome entry per reported event,
regardless of what any handler raised), the alarm-loop state evolution
is identical for any two callback behaviours, and whether the loop
itself fails (which only the uncaught `sort` `TypeError` can cause) is
independent of what the callbacks raise. -/
theorem handler_exceptions_isolated :
    (∀ (run : Nat → Nat → Except String Unit) (m : List (Nat × Nat))
        (events : List (Nat × Nat)),
      (Reactor.handleReady run m events).length = events.length) ∧
    (∀ (r1 r2 : Nat → Except String Unit) (now : Nat) (l : List ReactorAlarm),
      (Reactor.drainFire r1 now l).map Reactor.FireOut.eraseCaught =
        (Reactor.drainFire r2 now l).map Reactor.FireOut.eraseCaught) ∧
    (∀ (run : Nat → Except String Unit) (now : Nat) (l : List ReactorAlarm),
      Reactor.drainFire run now l = .error () ↔
        Reactor.drainFire (fun _ => .ok ()) now l = .error ()) := by
  refine ⟨fun run m events => List.length_map _ _, fun r1 r2 now l => ?_,
    fun run now l => ?_⟩
  · unfold Reactor.drainFire
    cases h : Reactor.drainStep now l with
    | error e => rfl
    | ok st => cases st <;> rfl
  · unfold Reactor.drainFire
    cases h : Reactor.drainStep now l with
    | error e => exact Iff.rfl
    | ok st => cases st <;> simp

/-- C10: sorting the alarm list compares `ReactorAlarm` namedtuples
element-wise, and for two alarms with equal deadlines and equal period
fields but distinct callbacks it falls through to ordering the callback
functions, which raises `TypeError`: both `Reactor.alarm` and
`Reactor.periodic_alarm` fail on such inputs, so registering a second
alarm at an already-used deadline can fail. -/
theorem equal_deadline_alarms_raise :
    Reactor.alarm 5 2 [⟨5, none, 1⟩] = .error () ∧
    Reactor.periodic_alarm 3 2 7 [⟨5, some 2, 6⟩] = .error () :=
  ⟨rfl, rfl⟩

/-- C2 counterexample: from an empty registration state, `register(5, c1)`
succeeds but the second `register(5, c2)` raises (`FileExistsError` from
`epoll.register`) instead of succeeding as the claim states. -/
theorem register_replace_counterexample :
    (Reactor.register 5 1 ⟨[], []⟩).2 = .ok () ∧
    (Reactor.register 5 2 (Reactor.register 5 1 ⟨[], []⟩).1).2 = .error () :=
  ⟨rfl, rfl⟩

/-- C2 amended: registering a second callback for an already-registered
handle raises (the underlying `epoll.register` fails) rather than
succeeding; the callback map has nevertheless already been replaced, so
`c2` is the handler the run loop would dispatch for `fd`; and
unregistering an unregistered handle is an error. -/
theorem register_second_raises_but_replaces (s : IOState) (fd c1 c2 : Nat)
    (h : fd ∉ s.epoll_fds) :
    (Reactor.register fd c1 s).2 = .ok () ∧
    (Reactor.register fd c2 (Reactor.register fd c1 s).1).2 = .error () ∧
    mapLookup fd (Reactor.register fd c2 (Reactor.register fd c1 s).1).1.epoll_map
      = some c2 ∧
    ∀ (s' : IOState) (fd' : Nat), fd' ∉ s'.epoll_fds →
      (Reactor.unregister fd' s').2 = .error () := by
  refine ⟨?_, ?_, ?_, fun s' fd' h' => ?_⟩
  · simp [Reactor.register, h]
  · simp [Reactor.register, h]
  · simp [Reactor.register, h, mapLookup_mapInsert]
  · simp [Reactor.unregister, h']

/-- C2 amended witness: the double registration of descriptor 5 and an
unregister of the never-registered descriptor 7. -/
theorem register_second_raises_but_replaces_witness :
    (5 ∉ (⟨[], []⟩ : IOState).epoll_fds) ∧
    (7 ∉ (⟨[(1, 1)], [1]⟩ : IOState).epoll_fds) ∧
    (Reactor.register 5 1 ⟨[], []⟩).2 = .ok () ∧
    (Reactor.register 5 2 (Reactor.register 5 1 ⟨[], []⟩).1).2 = .error () ∧
    mapLookup 5 (Reactor.register 5 2 (Reactor.register 5 1 ⟨[], []⟩).1).1.epoll_map
      = some 2 ∧
    (Reactor.unregister 7 ⟨[(1, 1)], [1]⟩).2 = .error () := by
  have h := register_second_raises_but_replaces ⟨[], []⟩ 5 1 2 (by simp)
  exact ⟨by simp, by simp, h.1, h.2.1, h.2.2.1,
    h.2.2.2 ⟨[(1, 1)], [1]⟩ 7 (by simp)⟩

/-! ## Claim theorems: Runner and Checkbox -/

/-- Helper: `Runner.stop` in the no-process state returns the state
unchanged, at any reentrancy fuel. -/
theorem stop_of_process_none {spawnOk : Bool} {errText name : String}
    {fuel : Nat} {s : SysState} (h : s.process = none) :
    Runner.stop spawnOk errText name fuel s = s := by
  cases fuel with
  | zero => rfl
  | succ f => simp [Runner.stop, h]

/-- A sample idle runner/checkbox state: no process, pipes closed,
nothing buffered or emitted. -/
def idleState : SysState :=
  ⟨none, 0, false, false, false, false, false, false, [], [], false, [], 0⟩

/-- A sample state with a live process whose two pipes are registered,
drained and whose write ends are closed — the state right before the
process's exit is noticed via EOF on both pipes. -/
def runningState : SysState :=
  ⟨some 0, 1, false, false, true, true, true, true, [], [], true, [], 0⟩

/-- C9: `Runner.stop()` with no running process is a no-op that never
raises: the process record, pipe handles, checkbox value and broadcast
log are all left unchanged (the model is total, so no exception path
exists; the source only prints a log line in this branch). -/
theorem runner_stop_noop_without_process (spawnOk : Bool)
    (errText name : String) (fuel : Nat) (s : SysState)
    (h : s.process = none) :
    Runner.stop spawnOk errText name fuel s = s := by
  cases fuel with
  | zero => rfl
  | succ f => simp [Runner.stop, h]

/-- C9 witness. -/
theorem runner_stop_noop_without_process_witness :
    idleState.process = none ∧
    Runner.stop true "tb" "demo" 3 idleState = idleState :=
  ⟨rfl, runner_stop_noop_without_process true "tb" "demo" 3 idleState rfl⟩

/-- C7: `Runner.start()` is idempotent while a process is live: a start
on any state with a recorded process changes nothing (no spawn, no
reset broadcast — the source only logs), so two starts from the idle
state spawn exactly one process. -/
theorem runner_start_idempotent (errText name : String) (s : SysState)
    (h : s.process = none) :
    (∀ (spawnOk : Bool) (e2 n2 : String) (t : SysState) (q : Nat),
      t.process = some q → Runner.start spawnOk e2 n2 t = t) ∧
    (Runner.start true errText name s).process = some s.nextPid ∧
    (Runner.start true errText name s).nextPid = s.nextPid + 1 ∧
    Runner.start true errText name (Runner.start true errText name s) =
      Runner.start true errText name s := by
  have noop : ∀ (spawnOk : Bool) (e2 n2 : String) (t : SysState) (q : Nat),
      t.process = some q → Runner.start spawnOk e2 n2 t = t := by
    intro spawnOk e2 n2 t q hq
    simp [Runner.start, hq]
  have h1 : (Runner.start true errText name s).process = some s.nextPid := by
    simp [Runner.start, Runner.start_, h]
  have h2 : (Runner.start true errText name s).nextPid = s.nextPid + 1 := by
    simp [Runner.start, Runner.start_, h]
  exact ⟨noop, h1, h2, noop true errText name _ _ h1⟩

/-- C7 witness: double start from the idle state. -/
theorem runner_start_idempotent_witness :
    idleState.process = none ∧
    runningState.process = some 0 ∧
    Runner.start true "tb" "demo" runningState = runningState ∧
    (Runner.start true "tb" "demo" idleState).process = some 0 ∧
    Runner.start true "tb" "demo" (Runner.start true "tb" "demo" idleState) =
      Runner.start true "tb" "demo" idleState := by
  have h := runner_start_idempotent "tb" "demo" idleState rfl
  exact ⟨rfl, rfl, h.1 true "tb" "demo" runningState 0 rfl, h.2.1, h.2.2.2⟩

/-- C8: for a Checkbox whose `update(control, true)` successfully starts
the process, the `{control, value, enable}` triple returned by `update`
equals the triple an immediately following `request(control)` returns,
and that value is `true`. -/
theorem update_request_roundtrip (errText name : String) (fuel : Nat)
    (s : SysState) (h : s.process = none) :
    Checkbox.request name (Checkbox.update true errText name fuel true s).1 =
      (Checkbox.update true errText name fuel true s).2 ∧
    (Checkbox.update true errText name fuel true s).2 =
      { control := name, value := true, enable := true } := by
  constructor <;>
    simp [Checkbox.update, Checkbox.update_, Runner.update_, Runner.start,
      Runner.start_, Checkbox.request, h]

/-- C8 witness. -/
theorem update_request_roundtrip_witness :
    idleState.process = none ∧
    Checkbox.request "demo" (Checkbox.update true "tb" "demo" 3 true idleState).1 =
      (Checkbox.update true "tb" "demo" 3 true idleState).2 ∧
    (Checkbox.update true "tb" "demo" 3 true idleState).2 =
      { control := "demo", value := true, enable := true } :=
  ⟨rfl, (update_request_roundtrip "tb" "demo" 3 idleState rfl).1,
   (update_request_roundtrip "tb" "demo" 3 idleState rfl).2⟩

/-- C4: when the spawn fails inside `start()`, the formatted error text
is written into the stderr pipe before its write end is closed, the
process record stays `none`, and the checkbox value reported by
`update` is `false`; the stderr EOF/data handler then broadcasts the
non-empty error text as a `<control>-stderr` event.  The exception
never escapes `start()` (the model of the spawn path is total). -/
theorem spawn_failure_surfaces (errText name : String) (fuel f2 : Nat)
    (s : SysState) (h : s.process = none) (hlen : errText.length ≠ 0) :
    (Checkbox.update false errText name fuel true s).2.value = false ∧
    (Checkbox.update false errText name fuel true s).2.enable = true ∧
    (Checkbox.update false errText name fuel true s).1.process = none ∧
    (Checkbox.update false errText name fuel true s).1.value = false ∧
    (Checkbox.update false errText name fuel true s).1.stderrBuf = [errText] ∧
    (Checkbox.update false errText name fuel true s).1.stderr_w = false ∧
    (Runner.stderr false errText name f2
        (Checkbox.update false errText name fuel true s).1).emitted =
      (Checkbox.update false errText name fuel true s).1.emitted ++
        [.stderrMsg name errText] := by
  simp [Checkbox.update, Checkbox.update_, Runner.update_, Runner.start,
    Runner.start_, Runner.stderr, pipeRead, h, hlen]

/-- C4 witness: spawning fails with traceback text "boom". -/
theorem spawn_failure_surfaces_witness :
    idleState.process = none ∧
    ("boom".length ≠ 0) ∧
    (Checkbox.update false "boom" "demo" 3 true idleState).2.value = false ∧
    (Checkbox.update false "boom" "demo" 3 true idleState).1.process = none ∧
    (Checkbox.update false "boom" "demo" 3 true idleState).1.stderrBuf = ["boom"] ∧
    (Runner.stderr false "boom" "demo" 3
        (Checkbox.update false "boom" "demo" 3 true idleState).1).emitted =
      (Checkbox.update false "boom" "demo" 3 true idleState).1.emitted ++
        [.stderrMsg "demo" "boom"] := by
  have h := spawn_failure_surfaces "boom" "demo" 3 3 idleState rfl (by decide)
  exact ⟨rfl, by decide, h.1, h.2.2.1, h.2.2.2.2.1, h.2.2.2.2.2.2⟩

/-- C1: when the supervised process exits on its own so that both pipes
deliver EOF (in either order), the termination path of `Runner._stop`
runs exactly once (`terminated` rises by exactly one — the second EOF
handler finds no live process and does nothing), the checkbox value
becomes `false`, and exactly one `<control>-value` broadcast carrying
`false` is appended to the emission log by `stopped()`. -/
theorem process_exit_single_stop (spawnOk : Bool) (errText name : String)
    (fuel : Nat) (p : Nat) (s : SysState)
    (hp : s.process = some p) (hob : s.stdoutBuf = []) (heb : s.stderrBuf = [])
    (hw1 : s.stdout_w = false) (hw2 : s.stderr_w = false) :
    ∀ s2 : SysState,
      (s2 = Runner.stdout spawnOk errText name (fuel + 1)
              (Runner.stderr spawnOk errText name (fuel + 1) s) ∨
       s2 = Runner.stderr spawnOk errText name (fuel + 1)
              (Runner.stdout spawnOk errText name (fuel + 1) s)) →
      s2.terminated = s.terminated + 1 ∧ s2.process = none ∧
      s2.value = false ∧
      s2.emitted = s.emitted ++ [.valueMsg name false true] := by
  intro s2 h12
  rcases h12 with h12 | h12 <;> subst h12 <;>
    simp [Runner.stderr, Runner.stdout, pipeRead, Runner.stop,
      Runner.stopInner, Checkbox.stopped_, Checkbox.update_, Runner.update_,
      stop_of_process_none, hp, hob, heb, hw1, hw2]

/-- C1 witness: both EOF orders from the canonical running state. -/
theorem process_exit_single_stop_witness :
    runningState.process = some 0 ∧
    (Runner.stdout true "tb" "demo" 3 (Runner.stderr true "tb" "demo" 3
        runningState)).terminated = runningState.terminated + 1 ∧
    (Runner.stdout true "tb" "demo" 3 (Runner.stderr true "tb" "demo" 3
        runningState)).emitted =
      runningState.emitted ++ [.valueMsg "demo" false true] ∧
    (Runner.stderr true "tb" "demo" 3 (Runner.stdout true "tb" "demo" 3
        runningState)).terminated = runningState.terminated + 1 := by
  have h := process_exit_single_stop true "tb" "demo" 2 0 runningState
    rfl rfl rfl rfl rfl
  exact ⟨rfl, (h _ (Or.inl rfl)).1, (h _ (Or.inl rfl)).2.2.2,
    (h _ (Or.inr rfl)).1⟩

end HoloscanTestSuite
